import Mathlib

/-!
Verification of the outstaffer-platform-reporting pipeline.

The definitions below are a shallow embedding of the reporting code:

* `latestFxRow`, `resolvedRate`, `convertAmount`, `convert_fees_to_aud` embed the
  currency-normalization logic of `metrics_utils.convert_fees_to_aud`
  (group by currency, pick the row with the maximum as-of date via `idxmax`,
  left-merge, `fillna(1.0)` on the rate, multiply).
* `get_fx_rate` embeds the helper of the same name in `snapshot_requisitions.py`
  (sort matching rates by date descending and take the first row; missing or
  empty currency yields the default rate 1.0).
* `get_revenue_breakdown` embeds `metrics_utils.get_revenue_breakdown`.
* `churnRate` / `retentionRate` / `churnedSubscriptions` / `revenueContractsCount`
  embed the churn computation in `snapshot_revenue.main`.
* `mrrTypePercentage` embeds the unguarded per-fee-type share divisions of
  `snapshot_revenue.main`, with Python float division by zero modelled as
  `Except.error`.
* `topCustomers` embeds the top-customers-by-ARR ranking of
  `snapshot-customers.py` (sort descending by ARR, truncate, rank = index + 1).
* `write_snapshot_to_bigquery` embeds the control flow of
  `snapshot_utils.write_snapshot_to_bigquery` as a state transition on the
  destination table, with each fallible warehouse step represented by a flag.
* `verify_api_key` embeds `backend/auth.py`.

Monetary amounts are modelled as rationals and dates as integer day ordinals.
-/

namespace OutstafferReporting

/-- One row of the `fx_rates` table restricted to a single target currency:
source currency, as-of date (day ordinal) and rate. -/
structure FxRow where
  currency : String
  fx_date : Int
  rate : ℚ
deriving DecidableEq, Repr

/-- Embeds the latest-rate selection of `convert_fees_to_aud`:
`fx_rates_df.groupby('currency').apply(lambda x: x.loc[x['fx_date'].idxmax()])`.
Among the rows for currency `c`, pick the one with the maximum `fx_date`;
`idxmax` returns the first occurrence of the maximum, which the fold below
reproduces by replacing the current best only on a strictly later date. -/
def latestFxRow (rows : List FxRow) (c : String) : Option FxRow :=
  (rows.filter (fun r => r.currency = c)).foldl
    (fun best r =>
      match best with
      | none => some r
      | some b => if b.fx_date < r.fx_date then some r else some b)
    none

/-- The conversion factor applied to a fee tagged with currency `c`:
the latest rate for `c`, or the `fillna(1.0)` default when no rate row exists. -/
def resolvedRate (rows : List FxRow) (c : String) : ℚ :=
  match latestFxRow rows c with
  | some r => r.rate
  | none => 1

/-- Embeds `df[fee_col].fillna(0) * rate`: one fee cell converted to AUD. -/
def convertAmount (rows : List FxRow) (c : String) (amount : ℚ) : ℚ :=
  amount * resolvedRate rows c

/-- Embeds `get_fx_rate` from `snapshot_requisitions.py`: `None` or empty
currency yields 1.0, a currency with no matching rate row yields 1.0, and
otherwise the rate of the latest-dated matching row is returned (the source
sorts matching rows by `fx_date` descending and takes the first). -/
def get_fx_rate (rows : List FxRow) (currency : Option String) : ℚ :=
  match currency with
  | none => 1
  | some c =>
    if c = "" then 1
    else
      match latestFxRow rows c with
      | some r => r.rate
      | none => 1

/-- One contract row after the fee query of `get_contract_fees` has been merged
in: each fee category carries its own amount and currency tag, plus the
creation timestamp used to window one-time fees. -/
structure ContractFees where
  contract_id : Nat
  eor_fees : ℚ
  eor_currency : String
  device_fees : ℚ
  device_currency : String
  hardware_fees : ℚ
  hardware_currency : String
  software_fees : ℚ
  software_currency : String
  health_fees : ℚ
  health_currency : String
  placement_fees : ℚ
  placement_currency : String
  finalisation_fees : ℚ
  finalisation_currency : String
  createdAt : Int
deriving DecidableEq, Repr

/-- The `_aud` columns produced by `convert_fees_to_aud` for one contract row:
each fee multiplied by the resolved rate of its own currency tag. -/
structure ConvertedFees where
  eor_fees_aud : ℚ
  device_fees_aud : ℚ
  hardware_fees_aud : ℚ
  software_fees_aud : ℚ
  health_fees_aud : ℚ
  placement_fees_aud : ℚ
  finalisation_fees_aud : ℚ
deriving DecidableEq, Repr

/-- Embeds the per-row effect of `metrics_utils.convert_fees_to_aud`. -/
def convert_fees_to_aud (fx : List FxRow) (c : ContractFees) : ConvertedFees :=
  { eor_fees_aud := convertAmount fx c.eor_currency c.eor_fees
    device_fees_aud := convertAmount fx c.device_currency c.device_fees
    hardware_fees_aud := convertAmount fx c.hardware_currency c.hardware_fees
    software_fees_aud := convertAmount fx c.software_currency c.software_fees
    health_fees_aud := convertAmount fx c.health_currency c.health_fees
    placement_fees_aud := convertAmount fx c.placement_currency c.placement_fees
    finalisation_fees_aud := convertAmount fx c.finalisation_currency c.finalisation_fees }

/-- The dictionary returned by `metrics_utils.get_revenue_breakdown`. -/
structure RevenueBreakdown where
  eor_fees_mrr : ℚ
  device_fees_mrr : ℚ
  hardware_fees_mrr : ℚ
  software_fees_mrr : ℚ
  health_fees_mrr : ℚ
  total_mrr : ℚ
  total_arr : ℚ
  one_time_fees : ℚ
  placement_fees : ℚ
  finalisation_fees : ℚ
  total_monthly_revenue : ℚ
  addon_percentage : ℚ
deriving DecidableEq, Repr

/-- The all-zero dictionary returned by `get_revenue_breakdown` on an empty
contract frame. -/
def zeroBreakdown : RevenueBreakdown :=
  { eor_fees_mrr := 0, device_fees_mrr := 0, hardware_fees_mrr := 0
    software_fees_mrr := 0, health_fees_mrr := 0, total_mrr := 0, total_arr := 0
    one_time_fees := 0, placement_fees := 0, finalisation_fees := 0
    total_monthly_revenue := 0, addon_percentage := 0 }

/-- Sum a converted-fee column over the contract frame. -/
def sumBy (contracts : List ContractFees) (f : ContractFees → ℚ) : ℚ :=
  (contracts.map f).sum

/-- Embeds the one-time-fee month window test of `get_revenue_breakdown`:
`month_start <= createdAt.date <= month_end`. -/
def inMonth (monthStart monthEnd : Int) (c : ContractFees) : Bool :=
  monthStart ≤ c.createdAt && c.createdAt ≤ monthEnd

/-- Embeds `eor_fees_mrr = df['eor_fees_aud'].sum()`. -/
def eorMrr (contracts : List ContractFees) (fx : List FxRow) : ℚ :=
  sumBy contracts (fun c => (convert_fees_to_aud fx c).eor_fees_aud)

/-- Embeds `device_fees_mrr = df['device_fees_aud'].sum()`. -/
def deviceMrr (contracts : List ContractFees) (fx : List FxRow) : ℚ :=
  sumBy contracts (fun c => (convert_fees_to_aud fx c).device_fees_aud)

/-- Embeds `hardware_fees_mrr = df['hardware_fees_aud'].sum()`. -/
def hardwareMrr (contracts : List ContractFees) (fx : List FxRow) : ℚ :=
  sumBy contracts (fun c => (convert_fees_to_aud fx c).hardware_fees_aud)

/-- Embeds `software_fees_mrr = df['software_fees_aud'].sum()`. -/
def softwareMrr (contracts : List ContractFees) (fx : List FxRow) : ℚ :=
  sumBy contracts (fun c => (convert_fees_to_aud fx c).software_fees_aud)

/-- Embeds `health_fees_mrr = df['health_fees_aud'].sum()`. -/
def healthMrr (contracts : List ContractFees) (fx : List FxRow) : ℚ :=
  sumBy contracts (fun c => (convert_fees_to_aud fx c).health_fees_aud)

/-- Embeds `total_mrr = eor + device + hardware + software + health`. -/
def totalMrr (contracts : List ContractFees) (fx : List FxRow) : ℚ :=
  eorMrr contracts fx + deviceMrr contracts fx + hardwareMrr contracts fx
    + softwareMrr contracts fx + healthMrr contracts fx

/-- Embeds `addon_mrr = device + hardware + software + health`. -/
def addonMrr (contracts : List ContractFees) (fx : List FxRow) : ℚ :=
  deviceMrr contracts fx + hardwareMrr contracts fx + softwareMrr contracts fx
    + healthMrr contracts fx

/-- Embeds the placement-fee sum over contracts created inside the month
window (`placement_fees_in_month`). -/
def placementInMonth (contracts : List ContractFees) (fx : List FxRow)
    (monthStart monthEnd : Int) : ℚ :=
  sumBy contracts (fun c =>
    if inMonth monthStart monthEnd c then (convert_fees_to_aud fx c).placement_fees_aud else 0)

/-- Embeds the finalisation-fee sum over contracts created inside the month
window (`finalisation_fees_in_month`). -/
def finalisationInMonth (contracts : List ContractFees) (fx : List FxRow)
    (monthStart monthEnd : Int) : ℚ :=
  sumBy contracts (fun c =>
    if inMonth monthStart monthEnd c then (convert_fees_to_aud fx c).finalisation_fees_aud else 0)

/-- Embeds `metrics_utils.get_revenue_breakdown`: an empty frame returns the
all-zero dictionary; otherwise fees are converted per currency tag, recurring
categories are summed into MRR, ARR is MRR times 12, one-time fees are summed
only for contracts created inside the snapshot month, and the add-on
percentage divides the non-EOR recurring sum by total MRR, guarded by
`if total_mrr > 0 else 0.0`. -/
def get_revenue_breakdown (contracts : List ContractFees) (fx : List FxRow)
    (monthStart monthEnd : Int) : RevenueBreakdown :=
  if contracts.isEmpty then zeroBreakdown
  else
    { eor_fees_mrr := eorMrr contracts fx
      device_fees_mrr := deviceMrr contracts fx
      hardware_fees_mrr := hardwareMrr contracts fx
      software_fees_mrr := softwareMrr contracts fx
      health_fees_mrr := healthMrr contracts fx
      total_mrr := totalMrr contracts fx
      total_arr := totalMrr contracts fx * 12
      one_time_fees := placementInMonth contracts fx monthStart monthEnd
        + finalisationInMonth contracts fx monthStart monthEnd
      placement_fees := placementInMonth contracts fx monthStart monthEnd
      finalisation_fees := finalisationInMonth contracts fx monthStart monthEnd
      total_monthly_revenue := totalMrr contracts fx
        + (placementInMonth contracts fx monthStart monthEnd
            + finalisationInMonth contracts fx monthStart monthEnd)
      addon_percentage :=
        if 0 < totalMrr contracts fx then
          addonMrr contracts fx / totalMrr contracts fx * 100
        else 0 }

/-- Embeds Python float division as used in `snapshot_revenue.main`: dividing
by zero raises `ZeroDivisionError`, modelled as `Except.error`. -/
def pyDiv (a b : ℚ) : Except Unit ℚ :=
  if b = 0 then Except.error () else Except.ok (a / b)

/-- Embeds the unguarded per-fee-type MRR share rows of `snapshot_revenue.main`
(`revenue_breakdown['eor_fees_mrr'] / revenue_breakdown['total_mrr'] * 100`
etc., which carry no zero guard). -/
def mrrTypePercentage (b : RevenueBreakdown) (component : ℚ) : Except Unit ℚ :=
  (pyDiv component b.total_mrr).map (fun q => q * 100)

/-- The row selected by the latest-rate fold is one of the input rows. -/
theorem latestFxRow_mem (rows : List FxRow) (c : String) (r : FxRow)
    (h : latestFxRow rows c = some r) : r ∈ rows := by
  have key : ∀ (l : List FxRow) (acc : Option FxRow) (x : FxRow),
      l.foldl (fun best s =>
        match best with
        | none => some s
        | some b => if b.fx_date < s.fx_date then some s else some b) acc = some x →
      acc = some x ∨ x ∈ l := by
    intro l
    induction l with
    | nil =>
      intro acc x hx
      exact Or.inl hx
    | cons y ys ih =>
      intro acc x hx
      rw [List.foldl_cons] at hx
      rcases ih _ x hx with hstep | hmem
      · cases acc with
        | none =>
          simp only [Option.some.injEq] at hstep
          exact Or.inr (by simp [hstep])
        | some b =>
          by_cases hb : b.fx_date < y.fx_date
          · simp only [hb, if_true, Option.some.injEq] at hstep
            exact Or.inr (by simp [hstep])
          · simp only [hb, if_false, Option.some.injEq] at hstep
            exact Or.inl (by simp [hstep])
      · exact Or.inr (List.mem_cons_of_mem _ hmem)
  unfold latestFxRow at h
  rcases key _ _ _ h with hcontra | hmem
  · exact absurd hcontra (by simp)
  · exact List.mem_of_mem_filter hmem

/-- When every rate in the table is nonnegative, so is every resolved
conversion factor (the default 1.0 included). -/
theorem resolvedRate_nonneg (rows : List FxRow) (c : String)
    (h : ∀ r ∈ rows, 0 ≤ r.rate) : 0 ≤ resolvedRate rows c := by
  unfold resolvedRate
  cases hl : latestFxRow rows c with
  | none => norm_num
  | some r => exact h r (latestFxRow_mem rows c r hl)

/-- A nonnegative amount converts to a nonnegative AUD amount. -/
theorem convertAmount_nonneg (rows : List FxRow) (c : String) (amount : ℚ)
    (h0 : 0 ≤ amount) (h : ∀ r ∈ rows, 0 ≤ r.rate) :
    0 ≤ convertAmount rows c amount :=
  mul_nonneg h0 (resolvedRate_nonneg rows c h)

/-- A column of nonnegative cells sums to a nonnegative total. -/
theorem sumBy_nonneg (contracts : List ContractFees) (f : ContractFees → ℚ)
    (h : ∀ c ∈ contracts, 0 ≤ f c) : 0 ≤ sumBy contracts f := by
  unfold sumBy
  apply List.sum_nonneg
  intro x hx
  rcases List.mem_map.mp hx with ⟨c, hc, rfl⟩
  exact h c hc

/-- A two-row sample FX table for the same currency on two as-of dates. -/
def sampleFx : List FxRow :=
  [{ currency := "USD", fx_date := 10, rate := 2 },
   { currency := "USD", fx_date := 5, rate := 3 }]

/-- A sample contract row with USD base fee and AUD add-on fees. -/
def sampleContract : ContractFees :=
  { contract_id := 1
    eor_fees := 100, eor_currency := "USD"
    device_fees := 10, device_currency := "AUD"
    hardware_fees := 0, hardware_currency := "AUD"
    software_fees := 0, software_currency := "AUD"
    health_fees := 20, health_currency := "AUD"
    placement_fees := 0, placement_currency := "AUD"
    finalisation_fees := 0, finalisation_currency := "AUD"
    createdAt := 15 }

/-- C1: for every contract set (the empty set included) the breakdown produced
by `get_revenue_breakdown` satisfies `total_arr = total_mrr * 12` exactly,
where `total_mrr` is the sum of the five converted recurring fee categories
(EOR, device, hardware, software, health). -/
theorem total_arr_is_twelve_times_total_mrr (contracts : List ContractFees)
    (fx : List FxRow) (monthStart monthEnd : Int) :
    (get_revenue_breakdown contracts fx monthStart monthEnd).total_arr
      = (get_revenue_breakdown contracts fx monthStart monthEnd).total_mrr * 12
    ∧ (get_revenue_breakdown contracts fx monthStart monthEnd).total_mrr
      = (get_revenue_breakdown contracts fx monthStart monthEnd).eor_fees_mrr
        + (get_revenue_breakdown contracts fx monthStart monthEnd).device_fees_mrr
        + (get_revenue_breakdown contracts fx monthStart monthEnd).hardware_fees_mrr
        + (get_revenue_breakdown contracts fx monthStart monthEnd).software_fees_mrr
        + (get_revenue_breakdown contracts fx monthStart monthEnd).health_fees_mrr := by
  unfold get_revenue_breakdown
  by_cases h : contracts.isEmpty <;> simp [h, zeroBreakdown, totalMrr]

/-- C2: a fee whose currency has no row in the FX-rate table is converted with
factor exactly 1, so the converted amount equals the original amount; the
`get_fx_rate` helper of the requisition snapshot likewise returns 1. -/
theorem missing_currency_factor_is_one (rows : List FxRow) (c : String) (amount : ℚ)
    (h : ∀ r ∈ rows, r.currency ≠ c) :
    resolvedRate rows c = 1 ∧ convertAmount rows c amount = amount
      ∧ get_fx_rate rows (some c) = 1 := by
  have hf : rows.filter (fun r => r.currency = c) = [] := by
    rw [List.filter_eq_nil_iff]
    intro r hr
    simp [h r hr]
  have hl : latestFxRow rows c = none := by
    unfold latestFxRow
    rw [hf]
    rfl
  refine ⟨?_, ?_, ?_⟩
  · simp [resolvedRate, hl]
  · simp [convertAmount, resolvedRate, hl]
  · simp [get_fx_rate, hl]

/-- C2 witness: the currency PHP has no row in the sample FX table, and a fee
of 7 PHP passes through unchanged. -/
theorem missing_currency_factor_is_one_witness :
    resolvedRate sampleFx "PHP" = 1 ∧ convertAmount sampleFx "PHP" 7 = 7
      ∧ get_fx_rate sampleFx (some "PHP") = 1 :=
  missing_currency_factor_is_one sampleFx "PHP" 7 (by decide)

/-- C3: when the FX table holds exactly two rows for currency `c` with
different as-of dates, the resolved conversion rate is the rate of the row
with the later (maximum) date, both in `convert_fees_to_aud` and in the
requisition-snapshot helper `get_fx_rate`. -/
theorem latest_dated_rate_selected (rows : List FxRow) (c : String) (r1 r2 : FxRow)
    (hf : rows.filter (fun r => r.currency = c) = [r1, r2])
    (hne : r1.fx_date ≠ r2.fx_date) (hc : c ≠ "") :
    resolvedRate rows c = (if r1.fx_date < r2.fx_date then r2 else r1).rate
      ∧ get_fx_rate rows (some c)
        = (if r1.fx_date < r2.fx_date then r2 else r1).rate := by
  have hl : latestFxRow rows c
      = some (if r1.fx_date < r2.fx_date then r2 else r1) := by
    unfold latestFxRow
    rw [hf]
    by_cases hd : r1.fx_date < r2.fx_date <;> simp [hd]
  constructor
  · unfold resolvedRate
    rw [hl]
  · simp [get_fx_rate, hl, hc]

/-- C3 witness: the sample table has two USD rows dated 10 and 5; the
resolved USD rate is the rate 3/2 of the later-dated row. -/
theorem latest_dated_rate_selected_witness :
    resolvedRate sampleFx "USD"
        = (if (10 : Int) < 5 then ({ currency := "USD", fx_date := 5, rate := 3 } : FxRow)
           else { currency := "USD", fx_date := 10, rate := 2 }).rate
      ∧ get_fx_rate sampleFx (some "USD")
        = (if (10 : Int) < 5 then ({ currency := "USD", fx_date := 5, rate := 3 } : FxRow)
           else { currency := "USD", fx_date := 10, rate := 2 }).rate :=
  latest_dated_rate_selected sampleFx "USD"
    { currency := "USD", fx_date := 10, rate := 2 }
    { currency := "USD", fx_date := 5, rate := 3 }
    (by rfl) (by decide) (by decide)

/-- C5: the first half of the claim holds — an empty contract set yields the
all-zero breakdown — but the downstream per-fee-type MRR share rows of
`snapshot_revenue.main` divide by `total_mrr` without a zero guard, so on the
all-zero breakdown the division is 0/0 and raises `ZeroDivisionError`
(modelled as `Except.error`) instead of yielding 0. -/
theorem empty_breakdown_zero_but_share_division_raises (fx : List FxRow)
    (monthStart monthEnd : Int) :
    get_revenue_breakdown [] fx monthStart monthEnd = zeroBreakdown
    ∧ mrrTypePercentage (get_revenue_breakdown [] fx monthStart monthEnd)
        (get_revenue_breakdown [] fx monthStart monthEnd).eor_fees_mrr
      = Except.error () := by
  constructor
  · simp [get_revenue_breakdown]
  · simp [get_revenue_breakdown, mrrTypePercentage, pyDiv, zeroBreakdown, Except.map]

/-- C6: when fee amounts and FX rates are nonnegative, the add-on percentage
of the breakdown equals `(total_mrr - eor_fees_mrr) / total_mrr * 100`
whenever `total_mrr` is nonzero, and is 0 when `total_mrr` is 0. -/
theorem addon_percentage_formula (contracts : List ContractFees) (fx : List FxRow)
    (monthStart monthEnd : Int)
    (hfees : ∀ c ∈ contracts, 0 ≤ c.eor_fees ∧ 0 ≤ c.device_fees ∧ 0 ≤ c.hardware_fees
      ∧ 0 ≤ c.software_fees ∧ 0 ≤ c.health_fees)
    (hrates : ∀ r ∈ fx, 0 ≤ r.rate) :
    ((get_revenue_breakdown contracts fx monthStart monthEnd).total_mrr ≠ 0 →
      (get_revenue_breakdown contracts fx monthStart monthEnd).addon_percentage
        = ((get_revenue_breakdown contracts fx monthStart monthEnd).total_mrr
            - (get_revenue_breakdown contracts fx monthStart monthEnd).eor_fees_mrr)
          / (get_revenue_breakdown contracts fx monthStart monthEnd).total_mrr * 100)
    ∧ ((get_revenue_breakdown contracts fx monthStart monthEnd).total_mrr = 0 →
      (get_revenue_breakdown contracts fx monthStart monthEnd).addon_percentage = 0) := by
  by_cases hempty : contracts.isEmpty
  · constructor
    · intro hne
      exact absurd (by simp [get_revenue_breakdown, hempty, zeroBreakdown]) hne
    · intro _
      simp [get_revenue_breakdown, hempty, zeroBreakdown]
  · have hnn : 0 ≤ totalMrr contracts fx := by
      unfold totalMrr eorMrr deviceMrr hardwareMrr softwareMrr healthMrr
      have h1 := sumBy_nonneg contracts (fun c => (convert_fees_to_aud fx c).eor_fees_aud)
        (fun c hc => convertAmount_nonneg fx _ _ (hfees c hc).1 hrates)
      have h2 := sumBy_nonneg contracts (fun c => (convert_fees_to_aud fx c).device_fees_aud)
        (fun c hc => convertAmount_nonneg fx _ _ (hfees c hc).2.1 hrates)
      have h3 := sumBy_nonneg contracts (fun c => (convert_fees_to_aud fx c).hardware_fees_aud)
        (fun c hc => convertAmount_nonneg fx _ _ (hfees c hc).2.2.1 hrates)
      have h4 := sumBy_nonneg contracts (fun c => (convert_fees_to_aud fx c).software_fees_aud)
        (fun c hc => convertAmount_nonneg fx _ _ (hfees c hc).2.2.2.1 hrates)
      have h5 := sumBy_nonneg contracts (fun c => (convert_fees_to_aud fx c).health_fees_aud)
        (fun c hc => convertAmount_nonneg fx _ _ (hfees c hc).2.2.2.2 hrates)
      simp only [convert_fees_to_aud] at h1 h2 h3 h4 h5 ⊢
      linarith
    constructor
    · intro hne
      have hpos : 0 < totalMrr contracts fx := by
        have hne2 : totalMrr contracts fx ≠ 0 := by
          simpa [get_revenue_breakdown, hempty] using hne
        exact lt_of_le_of_ne hnn (Ne.symm hne2)
      simp only [get_revenue_breakdown, hempty, if_false, Bool.false_eq_true, if_pos hpos]
      have haddon : totalMrr contracts fx - eorMrr contracts fx = addonMrr contracts fx := by
        unfold totalMrr addonMrr
        ring
      rw [haddon]
    · intro hzero
      have hz : totalMrr contracts fx = 0 := by
        simpa [get_revenue_breakdown, hempty] using hzero
      simp [get_revenue_breakdown, hempty, hz]

/-- C6 witness: one sample contract against an empty FX table (all factors
default to 1) gives total MRR 130 and add-on percentage
(130 - 100) / 130 * 100. -/
theorem addon_percentage_formula_witness :
    (get_revenue_breakdown [sampleContract] [] 0 30).addon_percentage
      = ((get_revenue_breakdown [sampleContract] [] 0 30).total_mrr
          - (get_revenue_breakdown [sampleContract] [] 0 30).eor_fees_mrr)
        / (get_revenue_breakdown [sampleContract] [] 0 30).total_mrr * 100 :=
  (addon_percentage_formula [sampleContract] [] 0 30
    (by intro c hc; rw [List.mem_singleton] at hc; subst hc; norm_num [sampleContract])
    (by intro r hr; exact absurd hr (List.not_mem_nil r))).1
    (by norm_num [get_revenue_breakdown, totalMrr, eorMrr, deviceMrr, hardwareMrr,
          softwareMrr, healthMrr, sumBy, convert_fees_to_aud, convertAmount,
          resolvedRate, latestFxRow, sampleContract])

/-- A contract row as used by the churn computation of `snapshot_revenue.main`:
identifier and last-update day ordinal. -/
structure StatusContract where
  contract_id : Nat
  updatedAt : Int
deriving DecidableEq, Repr

/-- Embeds `churned_df = inactive_df[(updatedAt >= month_start) & (updatedAt < next_month)]`
followed by `len(churned_df)`. -/
def churnedSubscriptions (inactive : List StatusContract) (monthStart nextMonth : Int) : Nat :=
  (inactive.filter (fun c => monthStart ≤ c.updatedAt && c.updatedAt < nextMonth)).length

/-- Embeds `pd.concat(...).drop_duplicates(subset='contract_id')`: keep the
first occurrence of each contract identifier. -/
def dropDuplicatesById (l : List StatusContract) : List StatusContract :=
  l.foldl (fun acc c =>
    if acc.any (fun d => d.contract_id = c.contract_id) then acc else acc ++ [c]) []

/-- Embeds `revenue_contracts_count = len(revenue_contracts_df)` where the
frame is the deduplicated concatenation of active and offboarding contracts. -/
def revenueContractsCount (active offboarding : List StatusContract) : Nat :=
  (dropDuplicatesById (active ++ offboarding)).length

/-- Embeds
`churn_rate = (churned / revenue_contracts_count) * 100 if revenue_contracts_count > 0 else 0`. -/
def churnRate (churned n : Nat) : ℚ :=
  if 0 < n then (churned : ℚ) / n * 100 else 0

/-- Embeds
`retention_rate = (1 - churned / revenue_contracts_count) * 100 if revenue_contracts_count > 0 else 0`. -/
def retentionRate (churned n : Nat) : ℚ :=
  if 0 < n then (1 - (churned : ℚ) / n) * 100 else 0

/-- Ten active contracts for scenario B of the spec. -/
def scenarioActive : List StatusContract :=
  [{ contract_id := 1, updatedAt := 0 }, { contract_id := 2, updatedAt := 0 },
   { contract_id := 3, updatedAt := 0 }, { contract_id := 4, updatedAt := 0 },
   { contract_id := 5, updatedAt := 0 }, { contract_id := 6, updatedAt := 0 },
   { contract_id := 7, updatedAt := 0 }, { contract_id := 8, updatedAt := 0 },
   { contract_id := 9, updatedAt := 0 }, { contract_id := 10, updatedAt := 0 }]

/-- Two inactive contracts updated inside the snapshot month. -/
def scenarioInactive : List StatusContract :=
  [{ contract_id := 11, updatedAt := 5 }, { contract_id := 12, updatedAt := 8 }]

/-- C4: the churn rate is the count of contracts that went Inactive inside the
snapshot month divided by the active revenue-contract population times 100,
the retention rate is 100 minus the churn rate, both are 0 on an empty
population, and scenario B (10 active contracts, 2 inactive updated this
month) yields churn 20 and retention 80. -/
theorem churn_and_retention_rates (churned n : Nat) :
    (0 < n → churnRate churned n = (churned : ℚ) / n * 100
      ∧ retentionRate churned n = 100 - churnRate churned n)
    ∧ (n = 0 → churnRate churned n = 0 ∧ retentionRate churned n = 0)
    ∧ churnedSubscriptions scenarioInactive 0 31 = 2
    ∧ revenueContractsCount scenarioActive [] = 10
    ∧ churnRate 2 10 = 20 ∧ retentionRate 2 10 = 80 := by
  refine ⟨?_, ?_, by decide, by decide, ?_, ?_⟩
  · intro hn
    constructor
    · simp [churnRate, hn]
    · simp [churnRate, retentionRate, hn]
      ring
  · intro hn
    subst hn
    simp [churnRate, retentionRate]
  · norm_num [churnRate]
  · norm_num [retentionRate]

/-- C4 witness: with 2 churned contracts over 10 revenue contracts the rates
satisfy the stated formulas. -/
theorem churn_and_retention_rates_witness :
    churnRate 2 10 = (2 : ℚ) / 10 * 100
      ∧ retentionRate 2 10 = 100 - churnRate 2 10 :=
  (churn_and_retention_rates 2 10).1 (by decide)

/-- One aggregated company row of the top-customers ranking in
`snapshot-customers.py`: company identifier and total ARR. -/
structure CompanyMetric where
  companyId : Nat
  total_arr : ℚ
deriving DecidableEq, Repr

/-- The descending-ARR comparison used by
`company_metrics.sort_values(by='total_arr', ascending=False)`. -/
def arrDesc (a b : CompanyMetric) : Bool :=
  decide (b.total_arr ≤ a.total_arr)

/-- Embeds `for idx, row in top_customers.iterrows(): rank = idx + 1`:
pair every row with its 1-based position. -/
def rankRows : Nat → List CompanyMetric → List (Nat × CompanyMetric)
  | _, [] => []
  | i, c :: cs => (i, c) :: rankRows (i + 1) cs

/-- Embeds the top-customers ranking: sort descending by ARR, truncate with
`head(n)`, and assign rank = 1-based position. -/
def topCustomers (companies : List CompanyMetric) (n : Nat) : List (Nat × CompanyMetric) :=
  rankRows 1 ((companies.mergeSort arrDesc).take n)

theorem rankRows_length (i : Nat) (l : List CompanyMetric) :
    (rankRows i l).length = l.length := by
  induction l generalizing i with
  | nil => rfl
  | cons c cs ih => simp [rankRows, ih]

theorem rankRows_map_fst (i : Nat) (l : List CompanyMetric) :
    (rankRows i l).map Prod.fst = List.range' i l.length := by
  induction l generalizing i with
  | nil => rfl
  | cons c cs ih => simp [rankRows, ih, List.range'_succ]

theorem rankRows_map_snd (i : Nat) (l : List CompanyMetric) :
    (rankRows i l).map Prod.snd = l := by
  induction l generalizing i with
  | nil => rfl
  | cons c cs ih => simp [rankRows, ih]

/-- Rank assignment preserves any pairwise relation on the underlying rows. -/
theorem rankRows_pairwise (R : CompanyMetric → CompanyMetric → Prop) (i : Nat)
    (l : List CompanyMetric) (h : l.Pairwise R) :
    (rankRows i l).Pairwise (fun a b => R a.2 b.2) := by
  have hmap : ((rankRows i l).map Prod.snd).Pairwise R := by
    rw [rankRows_map_snd]
    exact h
  exact List.pairwise_map.mp hmap

theorem arrDesc_trans (a b c : CompanyMetric) :
    arrDesc a b → arrDesc b c → arrDesc a c := by
  intro hab hbc
  simp only [arrDesc, decide_eq_true_eq] at hab hbc ⊢
  exact le_trans hbc hab

theorem arrDesc_total (a b : CompanyMetric) : arrDesc a b || arrDesc b a := by
  simp only [arrDesc, Bool.or_eq_true, decide_eq_true_eq]
  exact le_total b.total_arr a.total_arr

/-- C7: whenever the company set has at least `n` members, the top-`n`
ranking by ARR has exactly `n` rows, the ranks are the 1-based positions
1..n, and the ARR values are non-increasing as the rank increases. -/
theorem top_customers_ranking (companies : List CompanyMetric) (n : Nat)
    (h : n ≤ companies.length) :
    (topCustomers companies n).length = n
    ∧ (topCustomers companies n).map Prod.fst = List.range' 1 n
    ∧ (topCustomers companies n).Pairwise
        (fun a b => b.2.total_arr ≤ a.2.total_arr) := by
  have hlen : ((companies.mergeSort arrDesc).take n).length = n := by
    rw [List.length_take, List.length_mergeSort]
    exact Nat.min_eq_left h
  refine ⟨?_, ?_, ?_⟩
  · rw [topCustomers, rankRows_length, hlen]
  · rw [topCustomers, rankRows_map_fst, hlen]
  · have hsorted : (companies.mergeSort arrDesc).Pairwise
        (fun a b => b.total_arr ≤ a.total_arr) := by
      refine (List.sorted_mergeSort arrDesc_trans arrDesc_total companies).imp ?_
      intro a b hab
      simpa [arrDesc] using hab
    have htake : ((companies.mergeSort arrDesc).take n).Pairwise
        (fun a b => b.total_arr ≤ a.total_arr) :=
      List.Pairwise.sublist (List.take_sublist n _) hsorted
    exact rankRows_pairwise _ 1 _ htake

/-- Five sample companies for scenario C of the spec. -/
def sampleCompanies : List CompanyMetric :=
  [{ companyId := 1, total_arr := 50 }, { companyId := 2, total_arr := 90 },
   { companyId := 3, total_arr := 10 }, { companyId := 4, total_arr := 70 },
   { companyId := 5, total_arr := 30 }]

/-- C7 witness: the top-3 ranking over the 5 sample companies has 3 rows,
ranks 1..3 and non-increasing ARR. -/
theorem top_customers_ranking_witness :
    (topCustomers sampleCompanies 3).length = 3
    ∧ (topCustomers sampleCompanies 3).map Prod.fst = List.range' 1 3
    ∧ (topCustomers sampleCompanies 3).Pairwise
        (fun a b => b.2.total_arr ≤ a.2.total_arr) :=
  top_customers_ranking sampleCompanies 3 (by decide)

/-- One row of a metric snapshot frame: the snapshot date (day ordinal) and an
opaque payload standing for the remaining columns. -/
structure SnapshotRow where
  snapshot_date : Int
  payload : Nat
deriving DecidableEq, Repr

/-- Which of the fallible warehouse calls inside
`snapshot_utils.write_snapshot_to_bigquery` fail on this run: table existence,
the bootstrap create, the backup-table create, the same-date delete and the
append load job. -/
structure WriteEnv where
  tableExists : Bool
  createFails : Bool
  backupFails : Bool
  deleteFails : Bool
  appendFails : Bool
deriving DecidableEq, Repr

/-- The observable result of one `write_snapshot_to_bigquery` run: the boolean
return value, the destination table contents afterwards, whether the
`failed_snapshot_*.csv` local backup was written, and whether the append load
job was reached. -/
structure WriteOutcome where
  success : Bool
  table : List SnapshotRow
  localCsv : Bool
  appendAttempted : Bool
deriving DecidableEq, Repr

/-- Embeds the control flow of `snapshot_utils.write_snapshot_to_bigquery`
as a state transition on the destination table. An empty frame or a frame
without a `snapshot_date` column returns False inside the outer try block.
Dry-run mode returns True without touching the table. On a missing
destination the bootstrap create either succeeds or raises; the raise is
caught by the outer handler, which writes the local CSV backup and returns
False. On an existing destination the backup step is attempted and its
failure only logged (it changes nothing observable here), the delete step
removes the rows carrying the snapshot date of the first new row unless it
fails (its failure is also only logged), and the append step then either
appends the new rows and returns True or raises, in which case the outer
handler writes the local CSV backup and returns False. -/
def write_snapshot_to_bigquery (rows : List SnapshotRow) (hasDateColumn : Bool)
    (dryRun : Bool) (env : WriteEnv) (table : List SnapshotRow) : WriteOutcome :=
  if rows.length = 0 then
    { success := false, table := table, localCsv := false, appendAttempted := false }
  else if !hasDateColumn then
    { success := false, table := table, localCsv := false, appendAttempted := false }
  else if dryRun then
    { success := true, table := table, localCsv := false, appendAttempted := false }
  else if !env.tableExists then
    if env.createFails then
      { success := false, table := table, localCsv := true, appendAttempted := false }
    else
      { success := true, table := rows, localCsv := false, appendAttempted := false }
  else
    let snapshotDate := ((rows.head?).map (fun r => r.snapshot_date)).getD 0
    let tableAfterDelete :=
      if env.deleteFails then table
      else table.filter (fun r => r.snapshot_date ≠ snapshotDate)
    if env.appendFails then
      { success := false, table := tableAfterDelete, localCsv := true, appendAttempted := true }
    else
      { success := true, table := tableAfterDelete ++ rows, localCsv := false,
        appendAttempted := true }

/-- C8: the writer always hands back a boolean (the embedding is a total
function into `WriteOutcome`, every raise of the source being caught by the
outer handler): an empty frame or a frame without a snapshot_date column
returns False without the CSV fallback, and a failure of the snapshot write
itself (the bootstrap create, or the append on an existing table) returns
False after writing the local CSV backup. -/
theorem write_snapshot_error_handling (rows table : List SnapshotRow)
    (hasDateColumn dryRun : Bool) (env : WriteEnv) :
    (rows.length = 0 →
      (write_snapshot_to_bigquery rows hasDateColumn dryRun env table).success = false
      ∧ (write_snapshot_to_bigquery rows hasDateColumn dryRun env table).localCsv = false)
    ∧ (hasDateColumn = false →
      (write_snapshot_to_bigquery rows hasDateColumn dryRun env table).success = false)
    ∧ (rows.length ≠ 0 → hasDateColumn = true → dryRun = false →
       env.tableExists = false → env.createFails = true →
      (write_snapshot_to_bigquery rows hasDateColumn dryRun env table).success = false
      ∧ (write_snapshot_to_bigquery rows hasDateColumn dryRun env table).localCsv = true)
    ∧ (rows.length ≠ 0 → hasDateColumn = true → dryRun = false →
       env.tableExists = true → env.appendFails = true →
      (write_snapshot_to_bigquery rows hasDateColumn dryRun env table).success = false
      ∧ (write_snapshot_to_bigquery rows hasDateColumn dryRun env table).localCsv = true) := by
  unfold write_snapshot_to_bigquery
  refine ⟨?_, ?_, ?_, ?_⟩
  · intro h
    simp [h]
  · intro h
    by_cases h0 : rows.length = 0 <;> simp [h, h0]
  · intro h0 hd hdry hex hcf
    simp [h0, hd, hdry, hex, hcf]
  · intro h0 hd hdry hex haf
    simp [h0, hd, hdry, hex, haf]

/-- Two sample snapshot rows for date 100. -/
def sampleRows : List SnapshotRow :=
  [{ snapshot_date := 100, payload := 1 }, { snapshot_date := 100, payload := 2 }]

/-- A sample pre-existing destination table holding one old row for date 100
and one row for date 99. -/
def sampleTable : List SnapshotRow :=
  [{ snapshot_date := 100, payload := 9 }, { snapshot_date := 99, payload := 8 }]

/-- A run on an existing table where only the append load job fails. -/
def sampleEnvAppendFail : WriteEnv :=
  { tableExists := true, createFails := false, backupFails := true,
    deleteFails := false, appendFails := true }

/-- C8 witness: an append failure on an existing table returns False and
writes the local CSV backup. -/
theorem write_snapshot_error_handling_witness :
    (write_snapshot_to_bigquery sampleRows true false sampleEnvAppendFail sampleTable).success
        = false
    ∧ (write_snapshot_to_bigquery sampleRows true false sampleEnvAppendFail sampleTable).localCsv
        = true :=
  (write_snapshot_error_handling sampleRows sampleTable true false sampleEnvAppendFail).2.2.2
    (by decide) rfl rfl rfl rfl

/-- C10: on an existing destination, failures of the backup or delete steps
are only logged and the append still executes; in particular when the delete
fails and the append succeeds the outcome is True with the old rows kept in
full alongside the newly appended rows (duplicating the rows for the snapshot
date), and only an append failure triggers the local-CSV fallback and the
False return. -/
theorem backup_delete_failures_do_not_abort (rows table : List SnapshotRow)
    (env : WriteEnv) (hrows : rows.length ≠ 0) (hexists : env.tableExists = true) :
    (write_snapshot_to_bigquery rows true false env table).appendAttempted = true
    ∧ (env.appendFails = false →
        (write_snapshot_to_bigquery rows true false env table).success = true
        ∧ (write_snapshot_to_bigquery rows true false env table).localCsv = false)
    ∧ (env.deleteFails = true → env.appendFails = false →
        (write_snapshot_to_bigquery rows true false env table).table = table ++ rows)
    ∧ (env.appendFails = true →
        (write_snapshot_to_bigquery rows true false env table).success = false
        ∧ (write_snapshot_to_bigquery rows true false env table).localCsv = true) := by
  unfold write_snapshot_to_bigquery
  refine ⟨?_, ?_, ?_, ?_⟩
  · by_cases haf : env.appendFails <;> simp [hrows, hexists, haf]
  · intro haf
    simp [hrows, hexists, haf]
  · intro hdf haf
    simp [hrows, hexists, hdf, haf]
  · intro haf
    simp [hrows, hexists, haf]

/-- A run on an existing table where the backup and delete steps fail but the
append succeeds. -/
def sampleEnvDeleteFail : WriteEnv :=
  { tableExists := true, createFails := false, backupFails := true,
    deleteFails := true, appendFails := false }

/-- C10 witness: with a failing delete and a succeeding append the run
reports success and the destination holds the old date-100 row next to the
two new date-100 rows. -/
theorem backup_delete_failures_do_not_abort_witness :
    (write_snapshot_to_bigquery sampleRows true false sampleEnvDeleteFail sampleTable).success
        = true
    ∧ (write_snapshot_to_bigquery sampleRows true false sampleEnvDeleteFail sampleTable).table
        = sampleTable ++ sampleRows :=
  ⟨((backup_delete_failures_do_not_abort sampleRows sampleTable sampleEnvDeleteFail
      (by decide) rfl).2.1 rfl).1,
   (backup_delete_failures_do_not_abort sampleRows sampleTable sampleEnvDeleteFail
      (by decide) rfl).2.2.1 rfl rfl⟩

/-- The hardcoded fallback API key of `backend/auth.py`:
`os.getenv("API_KEY", "dJ8fK2sP9qR5xV7zT3mA6cE1bN")`. -/
def defaultApiKey : String := "dJ8fK2sP9qR5xV7zT3mA6cE1bN"

/-- The configured key: the API_KEY environment variable when set, the
hardcoded default otherwise. -/
def configuredApiKey (envApiKey : Option String) : String :=
  envApiKey.getD defaultApiKey

/-- The result of the FastAPI dependency: either the echoed key or an HTTP
status code. -/
inductive AuthOutcome where
  | ok (key : String)
  | unauthorized (status : Nat)
deriving DecidableEq, Repr

/-- Embeds `verify_api_key` of `backend/auth.py`: a missing header is `None`,
which compares unequal to the configured key and yields 401; a present header
is compared verbatim and any mismatch yields 401. -/
def verify_api_key (configured : String) (header : Option String) : AuthOutcome :=
  match header with
  | none => AuthOutcome.unauthorized 401
  | some k => if k ≠ configured then AuthOutcome.unauthorized 401 else AuthOutcome.ok k

/-- A protected endpoint runs its handler exactly when the dependency
returns the key. -/
def requestProcessed (configured : String) (header : Option String) : Bool :=
  match verify_api_key configured header with
  | AuthOutcome.ok _ => true
  | AuthOutcome.unauthorized _ => false

/-- C9: a request is processed iff the x-api-key header equals the configured
key verbatim; every other header value, a missing header included, yields
HTTP 401; and with the API_KEY environment variable unset the configured key
is the hardcoded default string of the source. -/
theorem api_key_gate (envApiKey header : Option String) :
    (requestProcessed (configuredApiKey envApiKey) header = true
      ↔ header = some (configuredApiKey envApiKey))
    ∧ (header ≠ some (configuredApiKey envApiKey) →
        verify_api_key (configuredApiKey envApiKey) header
          = AuthOutcome.unauthorized 401)
    ∧ verify_api_key (configuredApiKey envApiKey) none
        = AuthOutcome.unauthorized 401
    ∧ configuredApiKey none = defaultApiKey := by
  refine ⟨?_, ?_, rfl, rfl⟩
  · cases header with
    | none => simp [requestProcessed, verify_api_key]
    | some k =>
      by_cases hk : k = configuredApiKey envApiKey <;>
        simp [requestProcessed, verify_api_key, hk]
  · intro hne
    cases header with
    | none => rfl
    | some k =>
      have hk : k ≠ configuredApiKey envApiKey := fun hh => hne (by rw [hh])
      simp [verify_api_key, hk]

/-- C9 witness: with the environment variable unset, a wrong header value is
rejected with 401. -/
theorem api_key_gate_witness :
    verify_api_key (configuredApiKey none) (some "wrong")
      = AuthOutcome.unauthorized 401 :=
  (api_key_gate none (some "wrong")).2.1 (by decide)

end OutstafferReporting
